import Mathlib

/-!
Shallow embedding of the `spiketoolkit` ground-truth study workflow
(`spiketoolkit/comparison/groundtruthstudy.py`) and of the metric
thresholding entry points (`spiketoolkit/curation/threshold_metrics.py`),
together with theorems settling the specification claims.

The filesystem is modelled explicitly: a set of directories plus an
association list of files, where writing prepends (so a read finds the most
recent write).  External extractor-library writers
(`se.write_binary_dat_format`, `se.save_probe_file`,
`se.NpzSortingExtractor.write_sorting`) only produce opaque file payloads;
they are modelled as writing a payload carried by the recording / sorting
value, since no claim depends on those payloads.
-/

namespace SpikeToolkit

/-- A filesystem path, as a list of components. -/
abbrev FPath := List String

/-- Minimal filesystem model: a list of directories and an association list
of files mapping a path to its text content.  Writing prepends, so
`fileRead` returns the most recently written content. -/
structure FS where
  dirs : List FPath
  files : List (FPath × String)
deriving DecidableEq

/-- The empty filesystem. -/
def FS.empty : FS := ⟨[], []⟩

/-- Embeds `os.makedirs`: record a directory. -/
def FS.makedirs (fs : FS) (p : FPath) : FS := { fs with dirs := p :: fs.dirs }

/-- Embeds `open(p, 'w'); f.write(c)`: record a file with content `c` at path `p`. -/
def FS.writeFile (fs : FS) (p : FPath) (c : String) : FS :=
  { fs with files := (p, c) :: fs.files }

/-- Embeds `open(p, 'r'); f.read()`: content of the most recent write at `p`. -/
def FS.fileRead (fs : FS) (p : FPath) : Option String :=
  (fs.files.find? (fun e => decide (e.1 = p))).map (·.2)

/-- Embeds `os.path.exists` restricted to files. -/
def FS.fileExists (fs : FS) (p : FPath) : Bool :=
  fs.files.any (fun e => decide (e.1 = p))

/-- Whether a directory was created at `p`. -/
def FS.dirExists (fs : FS) (p : FPath) : Bool :=
  fs.dirs.any (fun d => decide (d = p))

/-- Embeds `os.path.exists`: true when a directory or a file lives at `p`. -/
def FS.pathExists (fs : FS) (p : FPath) : Bool :=
  fs.dirExists p || fs.fileExists p

/-- A recording, as seen by `setup_comparison_study`: the two queried fields
(`get_num_channels`, `get_sampling_frequency`) plus the opaque payloads the
external extractor writers produce for it (binary `.raw` data and
`spyking_circus` probe text). -/
structure Recording where
  num_channels : Nat
  sampling_frequency : Rat
  binContent : String
  prbContent : String
deriving DecidableEq

/-- A sorting result: an optional sampling frequency and, per unit
identifier, the spike train as an ordered list of integer sample indices.
The `npzContent` field is the opaque payload `NpzSortingExtractor.write_sorting`
produces for it. -/
structure Sorting where
  sampling_frequency : Option Rat
  units : List (Nat × List Nat)
  npzContent : String
deriving DecidableEq

/-- The JSON info file written by `setup_comparison_study`
(`json.dump(dict(sample_rate=sr, num_chan=num_chan, dtype='float32',
frames_first=True), f, indent=4)`). -/
def jsonInfoContent (r : Recording) : String :=
  "\x7b\n    \"sample_rate\": " ++ toString r.sampling_frequency ++
  ",\n    \"num_chan\": " ++ toString r.num_channels ++
  ",\n    \"dtype\": \"float32\",\n    \"frames_first\": true\n\x7d"

/-- Content of `names.txt`: the loop `for rec_name in gt_dict:
f.write(rec_name + '\n')`. -/
def namesTxtContent (names : List String) : String :=
  names.foldl (fun acc n => acc ++ (n ++ "\n")) ""

/-- Body of the `for rec_name, (recording, sorting_gt) in gt_dict.items()`
loop of `setup_comparison_study`: write the binary recording, the probe
file, the JSON info file and the ground-truth `.npz` for one recording. -/
def writeRecFiles (study_folder : FPath) (fs : FS)
    (entry : String × Recording × Sorting) : FS :=
  let rec_name := entry.1
  let recording := entry.2.1
  let sorting_gt := entry.2.2
  let _chunksize := 2 ^ 24 / recording.num_channels
  let fs := fs.writeFile (study_folder ++ ["raw_files", rec_name ++ ".raw"])
    recording.binContent
  let fs := fs.writeFile (study_folder ++ ["raw_files", rec_name ++ ".prb"])
    recording.prbContent
  let fs := fs.writeFile (study_folder ++ ["raw_files", rec_name ++ ".json"])
    (jsonInfoContent recording)
  fs.writeFile (study_folder ++ ["ground_truth", rec_name ++ ".npz"])
    sorting_gt.npzContent

/-- Embeds `setup_comparison_study(study_folder, gt_dict)`: asserts the folder does
not exist, then creates `raw_files` and `ground_truth`, writes per-recording
files, and finally the `names.txt` index.  The returned pair is the resulting
filesystem together with `some msg` when the assertion failed (in which case
the filesystem is returned untouched, since the assert precedes every write). -/
def setup_comparison_study (fs : FS) (study_folder : FPath)
    (gt_dict : List (String × Recording × Sorting)) : FS × Option String :=
  if fs.pathExists study_folder then
    (fs, some "study_folder already exists")
  else
    let fs := fs.makedirs study_folder
    let fs := fs.makedirs (study_folder ++ ["raw_files"])
    let fs := fs.makedirs (study_folder ++ ["ground_truth"])
    let fs := gt_dict.foldl (writeRecFiles study_folder) fs
    (fs.writeFile (study_folder ++ ["names.txt"])
      (namesTxtContent (gt_dict.map (·.1))), none)

/-- Python `str.split('\n')` on the character list: splits at every newline;
on the empty list it returns `[[]]`, exactly as `''.split('\n') == ['']`. -/
def splitNl : List Char → List (List Char)
  | [] => [[]]
  | c :: cs =>
    if c = '\n' then [] :: splitNl cs
    else
      match splitNl cs with
      | [] => [[c]]
      | r :: rs => (c :: r) :: rs

/-- Embeds `get_rec_names(study_folder)`: read `names.txt`, drop the final
character (`[:-1]`) and split on newlines.  `none` when `names.txt` is
absent (Python would raise). -/
def get_rec_names (fs : FS) (study_folder : FPath) : Option (List String) :=
  (fs.fileRead (study_folder ++ ["names.txt"])).map
    (fun content => (splitNl content.data.dropLast).map String.mk)

/-! Helper lemmas about `splitNl` and the `names.txt` round trip. -/

theorem splitNl_ne_nil (l : List Char) : splitNl l ≠ [] := by
  cases l with
  | nil => simp [splitNl]
  | cons c cs =>
    simp only [splitNl]
    split
    · simp
    · split <;> simp

theorem splitNl_no_nl (a : List Char) (ha : '\n' ∉ a) : splitNl a = [a] := by
  induction a with
  | nil => rfl
  | cons c cs ih =>
    simp only [List.mem_cons, not_or] at ha
    simp only [splitNl]
    rw [if_neg (fun h => ha.1 h.symm), ih ha.2]

theorem splitNl_append_nl (a t : List Char) (ha : '\n' ∉ a) :
    splitNl (a ++ '\n' :: t) = a :: splitNl t := by
  induction a with
  | nil => simp [splitNl]
  | cons c cs ih =>
    simp only [List.mem_cons, not_or] at ha
    simp only [List.cons_append, splitNl]
    rw [if_neg (fun h => ha.1 h.symm)]
    rw [show cs.append ('\n' :: t) = cs ++ '\n' :: t from rfl, ih ha.2]

/-- The concatenation `names.txt` holds: every name followed by a newline. -/
def joinNl (names : List (List Char)) : List Char :=
  (names.map (fun n => n ++ ['\n'])).flatten

theorem joinNl_ne_nil (n : List Char) (rest : List (List Char)) :
    joinNl (n :: rest) ≠ [] := by
  simp [joinNl]

theorem splitNl_joinNl (names : List (List Char)) (hne : names ≠ [])
    (hnl : ∀ n ∈ names, '\n' ∉ n) :
    splitNl (joinNl names).dropLast = names := by
  induction names with
  | nil => exact absurd rfl hne
  | cons a rest ih =>
    cases rest with
    | nil =>
      simp only [joinNl, List.map_cons, List.map_nil, List.flatten_cons,
        List.flatten_nil, List.append_nil]
      rw [List.dropLast_concat]
      exact splitNl_no_nl a (hnl a (List.mem_cons_self a []))
    | cons b rest2 =>
      have hjoin : joinNl (a :: b :: rest2) = (a ++ ['\n']) ++ joinNl (b :: rest2) := by
        simp [joinNl]
      rw [hjoin, List.dropLast_append_of_ne_nil _ (joinNl_ne_nil b rest2)]
      have : (a ++ ['\n']) ++ (joinNl (b :: rest2)).dropLast
          = a ++ '\n' :: (joinNl (b :: rest2)).dropLast := by
        simp
      rw [this, splitNl_append_nl a _ (hnl a (List.mem_cons_self a _))]
      rw [ih (by simp) (fun n hn => hnl n (List.mem_cons_of_mem a hn))]

theorem namesTxtContent_data (names : List String) :
    (namesTxtContent names).data = joinNl (names.map String.data) := by
  suffices h : ∀ acc : String,
      (names.foldl (fun acc n => acc ++ (n ++ "\n")) acc).data
        = acc.data ++ joinNl (names.map String.data) by
    simpa [namesTxtContent] using h ""
  induction names with
  | nil => intro acc; simp [joinNl]
  | cons a rest ih =>
    intro acc
    simp only [List.foldl_cons, ih, joinNl, List.map_cons, List.flatten_cons]
    simp [String.data_append]

/-! Basic filesystem lemmas. -/

theorem fileRead_writeFile_self (fs : FS) (p : FPath) (c : String) :
    (fs.writeFile p c).fileRead p = some c := by
  simp [FS.writeFile, FS.fileRead, List.find?]

theorem fileRead_writeFile_ne (fs : FS) (p q : FPath) (c : String) (h : q ≠ p) :
    (fs.writeFile q c).fileRead p = fs.fileRead p := by
  simp [FS.writeFile, FS.fileRead, List.find?, h]

theorem fileExists_writeFile_self (fs : FS) (p : FPath) (c : String) :
    (fs.writeFile p c).fileExists p = true := by
  simp [FS.writeFile, FS.fileExists]

theorem fileExists_writeFile_mono (fs : FS) (p q : FPath) (c : String)
    (h : fs.fileExists p = true) : (fs.writeFile q c).fileExists p = true := by
  simp only [FS.writeFile, FS.fileExists, List.any_cons]
  simp only [FS.fileExists] at h
  simp [h]

theorem dirs_writeFile (fs : FS) (p : FPath) (c : String) :
    (fs.writeFile p c).dirs = fs.dirs := rfl

theorem dirExists_makedirs_self (fs : FS) (p : FPath) :
    (fs.makedirs p).dirExists p = true := by
  simp [FS.makedirs, FS.dirExists]

theorem dirExists_makedirs_mono (fs : FS) (p q : FPath)
    (h : fs.dirExists p = true) : (fs.makedirs q).dirExists p = true := by
  simp only [FS.makedirs, FS.dirExists, List.any_cons]
  simp only [FS.dirExists] at h
  simp [h]

/-! Lemmas about the `setup_comparison_study` write loop. -/

theorem dirs_writeRecFiles (sf : FPath) (fs : FS) (e : String × Recording × Sorting) :
    (writeRecFiles sf fs e).dirs = fs.dirs := rfl

theorem dirs_foldl_writeRecFiles (sf : FPath) (l : List (String × Recording × Sorting))
    (fs : FS) : (l.foldl (writeRecFiles sf) fs).dirs = fs.dirs := by
  induction l generalizing fs with
  | nil => rfl
  | cons e rest ih => simp [List.foldl_cons, ih, dirs_writeRecFiles]

theorem fileExists_writeRecFiles_mono (sf : FPath) (fs : FS)
    (e : String × Recording × Sorting) (p : FPath) (h : fs.fileExists p = true) :
    (writeRecFiles sf fs e).fileExists p = true := by
  unfold writeRecFiles
  exact fileExists_writeFile_mono _ _ _ _
    (fileExists_writeFile_mono _ _ _ _
      (fileExists_writeFile_mono _ _ _ _ (fileExists_writeFile_mono _ _ _ _ h)))

theorem fileExists_foldl_writeRecFiles_mono (sf : FPath)
    (l : List (String × Recording × Sorting)) (fs : FS) (p : FPath)
    (h : fs.fileExists p = true) :
    (l.foldl (writeRecFiles sf) fs).fileExists p = true := by
  induction l generalizing fs with
  | nil => exact h
  | cons e rest ih =>
    exact ih _ (fileExists_writeRecFiles_mono sf fs e p h)

/-- After `writeRecFiles` for one entry, its four files exist. -/
theorem writeRecFiles_creates (sf : FPath) (fs : FS)
    (e : String × Recording × Sorting) :
    (writeRecFiles sf fs e).fileExists (sf ++ ["raw_files", e.1 ++ ".raw"]) = true
    ∧ (writeRecFiles sf fs e).fileExists (sf ++ ["raw_files", e.1 ++ ".prb"]) = true
    ∧ (writeRecFiles sf fs e).fileExists (sf ++ ["raw_files", e.1 ++ ".json"]) = true
    ∧ (writeRecFiles sf fs e).fileExists (sf ++ ["ground_truth", e.1 ++ ".npz"]) = true := by
  unfold writeRecFiles
  refine ⟨?_, ?_, ?_, ?_⟩
  · exact fileExists_writeFile_mono _ _ _ _
      (fileExists_writeFile_mono _ _ _ _
        (fileExists_writeFile_mono _ _ _ _ (fileExists_writeFile_self _ _ _)))
  · exact fileExists_writeFile_mono _ _ _ _
      (fileExists_writeFile_mono _ _ _ _ (fileExists_writeFile_self _ _ _))
  · exact fileExists_writeFile_mono _ _ _ _ (fileExists_writeFile_self _ _ _)
  · exact fileExists_writeFile_self _ _ _

theorem foldl_writeRecFiles_creates (sf : FPath)
    (l : List (String × Recording × Sorting)) (fs : FS)
    (e : String × Recording × Sorting) (he : e ∈ l) :
    (l.foldl (writeRecFiles sf) fs).fileExists (sf ++ ["raw_files", e.1 ++ ".raw"]) = true
    ∧ (l.foldl (writeRecFiles sf) fs).fileExists (sf ++ ["raw_files", e.1 ++ ".prb"]) = true
    ∧ (l.foldl (writeRecFiles sf) fs).fileExists (sf ++ ["raw_files", e.1 ++ ".json"]) = true
    ∧ (l.foldl (writeRecFiles sf) fs).fileExists (sf ++ ["ground_truth", e.1 ++ ".npz"]) = true := by
  induction l generalizing fs with
  | nil => cases he
  | cons x rest ih =>
    rcases List.mem_cons.mp he with h | h
    · subst h
      obtain ⟨h1, h2, h3, h4⟩ := writeRecFiles_creates sf fs e
      exact ⟨fileExists_foldl_writeRecFiles_mono sf rest _ _ h1,
        fileExists_foldl_writeRecFiles_mono sf rest _ _ h2,
        fileExists_foldl_writeRecFiles_mono sf rest _ _ h3,
        fileExists_foldl_writeRecFiles_mono sf rest _ _ h4⟩
    · exact ih _ h

theorem map_mk_data (l : List String) : (l.map String.data).map String.mk = l := by
  induction l with
  | nil => rfl
  | cons a rest ih => simp [ih]

/-- C3: for a non-empty `gt_dict` whose recording names contain no newline,
creating a study with `setup_comparison_study` and then reading it back with
`get_rec_names` returns exactly the keys of `gt_dict`, in their original
order and without duplicates (Python dict keys are unique, which the
`Nodup` hypothesis reflects). -/
theorem setup_then_get_rec_names_roundtrip (fs : FS) (study_folder : FPath)
    (gt_dict : List (String × Recording × Sorting))
    (hex : fs.pathExists study_folder = false)
    (hne : gt_dict ≠ [])
    (hnl : ∀ e ∈ gt_dict, '\n' ∉ e.1.data)
    (hnd : (gt_dict.map (·.1)).Nodup) :
    get_rec_names (setup_comparison_study fs study_folder gt_dict).1 study_folder
      = some (gt_dict.map (·.1))
    ∧ (gt_dict.map (·.1)).Nodup := by
  refine ⟨?_, hnd⟩
  simp only [setup_comparison_study, hex, Bool.false_eq_true, if_false]
  simp only [get_rec_names, fileRead_writeFile_self, Option.map_some']
  congr 1
  rw [namesTxtContent_data, splitNl_joinNl]
  · exact map_mk_data _
  · intro hempty
    exact hne (by simpa using congrArg List.length hempty)
  · intro n hn
    obtain ⟨s, hs, rfl⟩ := List.mem_map.mp hn
    obtain ⟨e, he, rfl⟩ := List.mem_map.mp hs
    exact hnl e he

/-- C3 witness: a concrete one-recording study round trip. -/
theorem setup_then_get_rec_names_roundtrip_witness :
    get_rec_names
        (setup_comparison_study FS.empty ["study"]
          [("rec0", ⟨2, 30000, "RAW", "PRB"⟩, ⟨some 30000, [(0, [5, 9])], "NPZ"⟩)]).1
        ["study"]
      = some ([("rec0", (⟨2, 30000, "RAW", "PRB"⟩ : Recording),
          (⟨some 30000, [(0, [5, 9])], "NPZ"⟩ : Sorting))].map (·.1))
    ∧ ([("rec0", (⟨2, 30000, "RAW", "PRB"⟩ : Recording),
          (⟨some 30000, [(0, [5, 9])], "NPZ"⟩ : Sorting))].map (·.1)).Nodup :=
  setup_then_get_rec_names_roundtrip FS.empty ["study"] _
    rfl (by simp) (by decide) (by decide)

/-- C4: `setup_comparison_study` fails on an existing study folder leaving
the filesystem untouched; on a fresh path it succeeds, creates the study
folder with its `raw_files` and `ground_truth` subfolders, writes the four
per-recording files for every entry of `gt_dict`, and writes the
`names.txt` index. -/
theorem setup_comparison_study_layout (fs : FS) (study_folder : FPath)
    (gt_dict : List (String × Recording × Sorting)) :
    (fs.pathExists study_folder = true →
      setup_comparison_study fs study_folder gt_dict
        = (fs, some "study_folder already exists"))
    ∧ (fs.pathExists study_folder = false →
      (setup_comparison_study fs study_folder gt_dict).2 = none
      ∧ (setup_comparison_study fs study_folder gt_dict).1.dirExists study_folder = true
      ∧ (setup_comparison_study fs study_folder gt_dict).1.dirExists
          (study_folder ++ ["raw_files"]) = true
      ∧ (setup_comparison_study fs study_folder gt_dict).1.dirExists
          (study_folder ++ ["ground_truth"]) = true
      ∧ (setup_comparison_study fs study_folder gt_dict).1.fileExists
          (study_folder ++ ["names.txt"]) = true
      ∧ ∀ e ∈ gt_dict,
          (setup_comparison_study fs study_folder gt_dict).1.fileExists
            (study_folder ++ ["raw_files", e.1 ++ ".raw"]) = true
          ∧ (setup_comparison_study fs study_folder gt_dict).1.fileExists
            (study_folder ++ ["raw_files", e.1 ++ ".prb"]) = true
          ∧ (setup_comparison_study fs study_folder gt_dict).1.fileExists
            (study_folder ++ ["raw_files", e.1 ++ ".json"]) = true
          ∧ (setup_comparison_study fs study_folder gt_dict).1.fileExists
            (study_folder ++ ["ground_truth", e.1 ++ ".npz"]) = true) := by
  constructor
  · intro h
    simp only [setup_comparison_study, h, if_true]
  · intro h
    simp only [setup_comparison_study, h, Bool.false_eq_true, if_false]
    refine ⟨trivial, ?_, ?_, ?_, fileExists_writeFile_self _ _ _, ?_⟩
    · show FS.dirExists _ study_folder = true
      simp only [FS.dirExists, dirs_writeFile, dirs_foldl_writeRecFiles]
      have h1 := dirExists_makedirs_self fs study_folder
      have h2 := dirExists_makedirs_mono _ study_folder (study_folder ++ ["raw_files"]) h1
      have h3 := dirExists_makedirs_mono _ study_folder (study_folder ++ ["ground_truth"]) h2
      simpa [FS.dirExists] using h3
    · show FS.dirExists _ (study_folder ++ ["raw_files"]) = true
      simp only [FS.dirExists, dirs_writeFile, dirs_foldl_writeRecFiles]
      have h1 := dirExists_makedirs_self (fs.makedirs study_folder) (study_folder ++ ["raw_files"])
      have h2 := dirExists_makedirs_mono _ _ (study_folder ++ ["ground_truth"]) h1
      simpa [FS.dirExists] using h2
    · show FS.dirExists _ (study_folder ++ ["ground_truth"]) = true
      simp only [FS.dirExists, dirs_writeFile, dirs_foldl_writeRecFiles]
      have h1 := dirExists_makedirs_self
        ((fs.makedirs study_folder).makedirs (study_folder ++ ["raw_files"]))
        (study_folder ++ ["ground_truth"])
      simpa [FS.dirExists] using h1
    · intro e he
      obtain ⟨h1, h2, h3, h4⟩ := foldl_writeRecFiles_creates study_folder gt_dict
        (((fs.makedirs study_folder).makedirs
          (study_folder ++ ["raw_files"])).makedirs (study_folder ++ ["ground_truth"]))
        e he
      exact ⟨fileExists_writeFile_mono _ _ _ _ h1, fileExists_writeFile_mono _ _ _ _ h2,
        fileExists_writeFile_mono _ _ _ _ h3, fileExists_writeFile_mono _ _ _ _ h4⟩

/-- C4 witness: concrete success case on an empty filesystem. -/
theorem setup_comparison_study_layout_witness :
    (setup_comparison_study FS.empty ["study"]
        [("rec0", ⟨2, 30000, "RAW", "PRB"⟩, ⟨some 30000, [(0, [5, 9])], "NPZ"⟩)]).2 = none
    ∧ (setup_comparison_study FS.empty ["study"]
        [("rec0", ⟨2, 30000, "RAW", "PRB"⟩, ⟨some 30000, [(0, [5, 9])], "NPZ"⟩)]).1.dirExists
        ["study"] = true
    ∧ (setup_comparison_study FS.empty ["study"]
        [("rec0", ⟨2, 30000, "RAW", "PRB"⟩, ⟨some 30000, [(0, [5, 9])], "NPZ"⟩)]).1.dirExists
        (["study"] ++ ["raw_files"]) = true
    ∧ (setup_comparison_study FS.empty ["study"]
        [("rec0", ⟨2, 30000, "RAW", "PRB"⟩, ⟨some 30000, [(0, [5, 9])], "NPZ"⟩)]).1.dirExists
        (["study"] ++ ["ground_truth"]) = true
    ∧ (setup_comparison_study FS.empty ["study"]
        [("rec0", ⟨2, 30000, "RAW", "PRB"⟩, ⟨some 30000, [(0, [5, 9])], "NPZ"⟩)]).1.fileExists
        (["study"] ++ ["names.txt"]) = true
    ∧ ∀ e ∈ [(("rec0" : String), (⟨2, 30000, "RAW", "PRB"⟩ : Recording),
          (⟨some 30000, [(0, [5, 9])], "NPZ"⟩ : Sorting))],
        (setup_comparison_study FS.empty ["study"]
          [("rec0", ⟨2, 30000, "RAW", "PRB"⟩, ⟨some 30000, [(0, [5, 9])], "NPZ"⟩)]).1.fileExists
          (["study"] ++ ["raw_files", e.1 ++ ".raw"]) = true
        ∧ (setup_comparison_study FS.empty ["study"]
          [("rec0", ⟨2, 30000, "RAW", "PRB"⟩, ⟨some 30000, [(0, [5, 9])], "NPZ"⟩)]).1.fileExists
          (["study"] ++ ["raw_files", e.1 ++ ".prb"]) = true
        ∧ (setup_comparison_study FS.empty ["study"]
          [("rec0", ⟨2, 30000, "RAW", "PRB"⟩, ⟨some 30000, [(0, [5, 9])], "NPZ"⟩)]).1.fileExists
          (["study"] ++ ["raw_files", e.1 ++ ".json"]) = true
        ∧ (setup_comparison_study FS.empty ["study"]
          [("rec0", ⟨2, 30000, "RAW", "PRB"⟩, ⟨some 30000, [(0, [5, 9])], "NPZ"⟩)]).1.fileExists
          (["study"] ++ ["ground_truth", e.1 ++ ".npz"]) = true :=
  (setup_comparison_study_layout FS.empty ["study"]
    [("rec0", ⟨2, 30000, "RAW", "PRB"⟩, ⟨some 30000, [(0, [5, 9])], "NPZ"⟩)]).2 rfl

/-- C10: `get_rec_names` returns the content of `names.txt` with its final
character removed, split on newlines; in particular a study created from an
empty `gt_dict` yields the one-element list containing the empty string,
not the empty list. -/
theorem get_rec_names_split_semantics :
    (∀ (fs : FS) (folder : FPath) (content : String),
      fs.fileRead (folder ++ ["names.txt"]) = some content →
      get_rec_names fs folder
        = some ((splitNl content.data.dropLast).map String.mk))
    ∧ ∀ (fs : FS) (folder : FPath), fs.pathExists folder = false →
      get_rec_names (setup_comparison_study fs folder []).1 folder = some [""] := by
  constructor
  · intro fs folder content h
    simp [get_rec_names, h]
  · intro fs folder h
    simp only [setup_comparison_study, h, Bool.false_eq_true, if_false]
    simp only [get_rec_names, fileRead_writeFile_self, Option.map_some']
    rfl

/-- C10 witness: reading a two-name index, and the empty-study case. -/
theorem get_rec_names_split_semantics_witness :
    get_rec_names (FS.empty.writeFile (["study"] ++ ["names.txt"]) "a\nb\n") ["study"]
      = some ((splitNl ("a\nb\n" : String).data.dropLast).map String.mk)
    ∧ get_rec_names (setup_comparison_study FS.empty ["study2"] []).1 ["study2"]
      = some [""] :=
  ⟨get_rec_names_split_semantics.1 _ ["study"] "a\nb\n" rfl,
   get_rec_names_split_semantics.2 FS.empty ["study2"] rfl⟩

/-! `run_study_sorters` and `collect_run_times`. -/

/-- Modelled from the spec: `run_sorters` (from `spiketoolkit.sorters`, not
under `src/`) performs "folder-based persistence of ... sorter outputs,
keyed by recording name and sorter name": each job
`(rec_name, sorter_name, file_name, content)` writes its output file under
`output_folder/rec_name/sorter_name/`. -/
def run_sorters (fs : FS) (output_folder : FPath)
    (jobs : List (String × String × String × String)) : FS :=
  jobs.foldl (fun fs job =>
    fs.writeFile (output_folder ++ [job.1, job.2.1, job.2.2.1]) job.2.2.2) fs

/-- Embeds `run_study_sorters(study_folder, sorter_list, ...)`: runs the sorters
with `sorter_outputs = study_folder / 'sorter_outputs'` as output folder.
`collect_run_times`, `aggregate_sorting_comparison` and
`aggregate_performances_table` are embedded below as pure readers of the
filesystem, so this is the only study operation that writes. -/
def run_study_sorters (fs : FS) (study_folder : FPath)
    (jobs : List (String × String × String × String)) : FS :=
  run_sorters fs (study_folder ++ ["sorter_outputs"]) jobs

theorem fileRead_run_sorters_frame (output_folder : FPath)
    (jobs : List (String × String × String × String)) (fs : FS) (p : FPath)
    (h : ∀ rest : FPath, p ≠ output_folder ++ rest) :
    (run_sorters fs output_folder jobs).fileRead p = fs.fileRead p := by
  induction jobs generalizing fs with
  | nil => rfl
  | cons j rest ih =>
    simp only [run_sorters, List.foldl_cons] at *
    rw [ih, fileRead_writeFile_ne]
    exact fun hq => h [j.1, j.2.1, j.2.2.1] hq.symm

/-- C5: a study is immutable once created.  `run_study_sorters` writes only
under `sorter_outputs/`: reading any path whose component after the study
folder is not `sorter_outputs` — in particular anything under `raw_files/`
or `ground_truth/`, and `names.txt` — yields the same content before and
after.  The collection and aggregation operations are embedded as pure
functions of the filesystem and so modify nothing. -/
theorem run_study_sorters_frame (fs : FS) (study_folder : FPath)
    (jobs : List (String × String × String × String))
    (comp : String) (rest : FPath) (h : comp ≠ "sorter_outputs") :
    (run_study_sorters fs study_folder jobs).fileRead (study_folder ++ comp :: rest)
      = fs.fileRead (study_folder ++ comp :: rest) := by
  apply fileRead_run_sorters_frame
  intro rest2 hq
  rw [List.append_assoc] at hq
  have h2 : comp :: rest = "sorter_outputs" :: rest2 := by
    simpa using List.append_cancel_left hq
  exact h (List.cons_eq_cons.mp h2).1

/-- C5 witness: writing a sorter output leaves `names.txt` and the raw and
ground-truth files of a concrete study untouched. -/
theorem run_study_sorters_frame_witness :
    (run_study_sorters
        (FS.empty.writeFile (["study"] ++ ["names.txt"]) "rec0\n")
        ["study"] [("rec0", "sorterA", "run_log.txt", "run_time:1.5\n")]).fileRead
        (["study"] ++ "names.txt" :: [])
      = (FS.empty.writeFile (["study"] ++ ["names.txt"]) "rec0\n").fileRead
        (["study"] ++ "names.txt" :: []) :=
  run_study_sorters_frame _ ["study"] _ "names.txt" [] (by decide)

/-- First line of a file, as `f.readline()` returns it: characters up to and
including the first newline. -/
def readlineChars : List Char → List Char
  | [] => []
  | c :: cs => if c = '\n' then ['\n'] else c :: readlineChars cs

/-- The characters of the `'run_time:'` tag. -/
def runTimeTag : List Char := ['r', 'u', 'n', '_', 't', 'i', 'm', 'e', ':']

/-- Python `str.replace('run_time:', '')`: removes every (left-to-right,
non-overlapping) occurrence of the tag. -/
def stripRunTimeAll : List Char → List Char
  | 'r' :: 'u' :: 'n' :: '_' :: 't' :: 'i' :: 'm' :: 'e' :: ':' :: rest =>
      stripRunTimeAll rest
  | c :: rest => c :: stripRunTimeAll rest
  | [] => []

/-- The string the code hands to `float(...)`:
`logfile.readline().replace('run_time:', '')`.  The `float` conversion
itself is numeric parsing done by the Python runtime; the model keeps the
cleaned string that is passed to it. -/
def parseRunTime (content : String) : String :=
  String.mk (stripRunTimeAll (readlineChars content.data))

/-- Modelled from the spec: `loop_over_folders` (from
`spiketoolkit.sorters`, not under `src/`) enumerates
`(rec_name, sorter_name, output_folder)` triples.  An output folder is
represented here by its two names together with the content of its
`run_log.txt` when that file exists (`none` when it does not). -/
abbrev OutputFolder := String × String × Option String

/-- Embeds `collect_run_times(study_folder)`: one `(rec_name, sorter_name,
run_time)` triple per output folder holding a `run_log.txt`; folders
without one are skipped. -/
def collect_run_times (folders : List OutputFolder) :
    List (String × String × String) :=
  folders.foldl (fun run_times f =>
    match f.2.2 with
    | some content => run_times ++ [(f.1, f.2.1, parseRunTime content)]
    | none => run_times) []

theorem collect_run_times_foldl_acc (folders : List OutputFolder)
    (acc : List (String × String × String)) :
    folders.foldl (fun run_times f =>
        match f.2.2 with
        | some content => run_times ++ [(f.1, f.2.1, parseRunTime content)]
        | none => run_times) acc
      = acc ++ folders.filterMap (fun f =>
          f.2.2.map (fun content => (f.1, f.2.1, parseRunTime content))) := by
  induction folders generalizing acc with
  | nil => simp
  | cons f rest ih =>
    cases hf : f.2.2 with
    | none => simp [List.foldl_cons, hf, ih]
    | some content => simp [List.foldl_cons, hf, ih]

theorem readlineChars_tag_append (r : List Char) :
    readlineChars (runTimeTag ++ r) = runTimeTag ++ readlineChars r := by
  simp [runTimeTag, readlineChars]

theorem stripRunTimeAll_tag_append (r : List Char) :
    stripRunTimeAll (runTimeTag ++ r) = stripRunTimeAll r := rfl

/-- C6: `collect_run_times` returns exactly one triple per output folder
that has a `run_log.txt` — folders without one are skipped, never failing —
and when the first line of the log is the `run_time:` tag followed by a
tail in which the tag does not occur again, the collected value is that
first line with the leading tag removed. -/
theorem collect_run_times_spec :
    (∀ folders : List OutputFolder,
      collect_run_times folders
        = folders.filterMap (fun f =>
            f.2.2.map (fun content => (f.1, f.2.1, parseRunTime content))))
    ∧ ∀ r : List Char, stripRunTimeAll (readlineChars r) = readlineChars r →
        parseRunTime (String.mk (runTimeTag ++ r)) = String.mk (readlineChars r) := by
  constructor
  · intro folders
    simpa using collect_run_times_foldl_acc folders []
  · intro r hr
    simp only [parseRunTime, readlineChars_tag_append, stripRunTimeAll_tag_append, hr]

/-- C6 witness: one finished and one unfinished output folder; the finished
one contributes a triple with the tag stripped from the first line. -/
theorem collect_run_times_spec_witness :
    collect_run_times
        [("rec0", "sorterA", some "run_time:1.5\n"), ("rec0", "sorterB", none)]
      = [(("rec0", "sorterA", some "run_time:1.5\n") : OutputFolder),
         ("rec0", "sorterB", none)].filterMap (fun f =>
          f.2.2.map (fun content => (f.1, f.2.1, parseRunTime content)))
    ∧ parseRunTime (String.mk (runTimeTag ++ ("1.5\n" : String).data))
      = String.mk (readlineChars ("1.5\n" : String).data) :=
  ⟨collect_run_times_spec.1 _, collect_run_times_spec.2 ("1.5\n" : String).data (by decide)⟩

/-! Ground-truth comparison.  `compare_sorter_to_ground_truth` lives in
`groundtruthcomparison.py`, which is not under `src/`; the Matcher is
modelled from the spec. -/

/-- Association-list lookup, the `dict[key]` access (`none` for `KeyError`). -/
def lookupBy {κ α : Type} [DecidableEq κ] (l : List (κ × α)) (k : κ) : Option α :=
  (l.find? (fun e => decide (e.1 = k))).map (·.2)

/-- Modelled from the spec: the "spike-time-tolerance overlap score" — the
number of ground-truth spikes having a sorter spike within `delta` samples. -/
def overlapScore (delta : Nat) (gtTrain sTrain : List Nat) : Nat :=
  (gtTrain.filter (fun t => sTrain.any (fun s => ((t : Int) - (s : Int)).natAbs ≤ delta))).length

/-- Modelled from the spec: the Matcher's greedy assignment — the
best-matching sorter unit for one ground-truth spike train, `none` when no
sorter unit overlaps it at all. -/
def bestMatch (delta : Nat) (gtTrain : List Nat)
    (sorterUnits : List (Nat × List Nat)) : Option Nat :=
  let best := sorterUnits.foldl (fun acc u =>
    let score := overlapScore delta gtTrain u.2
    match acc with
    | none => some (u.1, score)
    | some a => if a.2 < score then some (u.1, score) else some a) none
  match best with
  | none => none
  | some b => if b.2 = 0 then none else some b.1

/-- The spike-time tolerance (in samples) used by the comparison. -/
def delta_frames : Nat := 10

/-- Modelled from the spec: the "Comparison result: for one
(recording, sorter) pair, a mapping from ground-truth unit to best-matching
sorter unit (or none)". -/
structure Comparison where
  delta : Nat
  gt_sorting : Sorting
  tested_sorting : Sorting
  best_match_12 : List (Nat × Option Nat)
deriving DecidableEq

/-- Modelled from the spec: `compare_sorter_to_ground_truth(gt_sorting,
sorting)` (from `groundtruthcomparison.py`, not under `src/`) computes, for
each ground-truth unit, its best-matching sorter unit under the
spike-time-tolerance overlap score. -/
def compare_sorter_to_ground_truth (gt_sorting sorting : Sorting) : Comparison :=
  { delta := delta_frames
    gt_sorting := gt_sorting
    tested_sorting := sorting
    best_match_12 := gt_sorting.units.map
      (fun g => (g.1, bestMatch delta_frames g.2 sorting.units)) }

/-- Embeds `aggregate_sorting_comparison(study_folder, exhaustive_gt,
**karg_thresh)`: the ground truths (read back from `ground_truth/`, keyed
by recording name) and the collected sorter outputs (keyed by
`(rec_name, sorter_name)`, via `collect_sorting_outputs`, repo code not
under `src/`) are passed as dictionaries.  Loops over the outputs and runs
the ground-truth comparison on each; `ground_truths[rec_name]` raises
`KeyError` when the recording is unknown.  Note that neither
`exhaustive_gt` nor `karg_thresh` is forwarded to
`compare_sorter_to_ground_truth`. -/
def aggregate_sorting_comparison (ground_truths : List (String × Sorting))
    (results : List ((String × String) × Sorting)) (exhaustive_gt : Bool)
    (karg_thresh : Rat) : Except String (List ((String × String) × Comparison)) :=
  match results with
  | [] => .ok []
  | (key, sorting) :: rest =>
    match lookupBy ground_truths key.1 with
    | none => .error ("KeyError: " ++ key.1)
    | some gt_sorting =>
      match aggregate_sorting_comparison ground_truths rest exhaustive_gt karg_thresh with
      | .error e => .error e
      | .ok comparisons =>
        .ok ((key, compare_sorter_to_ground_truth gt_sorting sorting) :: comparisons)

theorem aggregate_sorting_comparison_ok (ground_truths : List (String × Sorting))
    (results : List ((String × String) × Sorting)) (exhaustive_gt : Bool)
    (karg_thresh : Rat)
    (h : ∀ p ∈ results, (lookupBy ground_truths p.1.1).isSome = true) :
    aggregate_sorting_comparison ground_truths results exhaustive_gt karg_thresh
      = .ok (results.map (fun p => (p.1, compare_sorter_to_ground_truth
          ((lookupBy ground_truths p.1.1).getD ⟨none, [], ""⟩) p.2))) := by
  induction results with
  | nil => rfl
  | cons p rest ih =>
    obtain ⟨gt, hgt⟩ := Option.isSome_iff_exists.mp (h p (List.mem_cons_self p rest))
    have hrest := ih (fun q hq => h q (List.mem_cons_of_mem p hq))
    simp [aggregate_sorting_comparison, hgt, hrest]

/-- C1: when every collected output's recording has a stored ground truth,
`aggregate_sorting_comparison` returns a dictionary keyed exactly by the
`(rec_name, sorter_name)` pairs of the collected outputs, whose value at
each pair is the ground-truth comparison of that recording's ground truth
against that output — a mapping from each ground-truth unit to its
best-matching sorter unit or none, under the spike-time-tolerance overlap
score. -/
theorem aggregate_sorting_comparison_spec (ground_truths : List (String × Sorting))
    (results : List ((String × String) × Sorting)) (exhaustive_gt : Bool)
    (karg_thresh : Rat)
    (h : ∀ p ∈ results, (lookupBy ground_truths p.1.1).isSome = true) :
    ∃ comparisons,
      aggregate_sorting_comparison ground_truths results exhaustive_gt karg_thresh
        = .ok comparisons
      ∧ comparisons.map Prod.fst = results.map Prod.fst
      ∧ comparisons = results.map (fun p => (p.1, compare_sorter_to_ground_truth
          ((lookupBy ground_truths p.1.1).getD ⟨none, [], ""⟩) p.2))
      ∧ ∀ c ∈ comparisons, c.2.best_match_12 = c.2.gt_sorting.units.map
          (fun g => (g.1, bestMatch c.2.delta g.2 c.2.tested_sorting.units)) := by
  refine ⟨_, aggregate_sorting_comparison_ok ground_truths results exhaustive_gt karg_thresh h,
    ?_, rfl, ?_⟩
  · simp
  · intro c hc
    obtain ⟨p, _, rfl⟩ := List.mem_map.mp hc
    rfl

/-- C1 witness: one recording, one sorter output. -/
theorem aggregate_sorting_comparison_spec_witness :
    ∃ comparisons,
      aggregate_sorting_comparison [("rec0", ⟨some 30000, [(0, [5, 9])], "NPZ"⟩)]
          [(("rec0", "sorterA"), ⟨none, [(3, [6])], "OUT"⟩)] false 0
        = .ok comparisons
      ∧ comparisons.map Prod.fst
        = [((("rec0", "sorterA") : String × String),
            (⟨none, [(3, [6])], "OUT"⟩ : Sorting))].map Prod.fst
      ∧ comparisons = [((("rec0", "sorterA") : String × String),
            (⟨none, [(3, [6])], "OUT"⟩ : Sorting))].map
          (fun p => (p.1, compare_sorter_to_ground_truth
            ((lookupBy [("rec0", (⟨some 30000, [(0, [5, 9])], "NPZ"⟩ : Sorting))]
              p.1.1).getD ⟨none, [], ""⟩) p.2))
      ∧ ∀ c ∈ comparisons, c.2.best_match_12 = c.2.gt_sorting.units.map
          (fun g => (g.1, bestMatch c.2.delta g.2 c.2.tested_sorting.units)) :=
  aggregate_sorting_comparison_spec _ _ false 0 (by decide)

/-- C7: `aggregate_sorting_comparison` is insensitive to `exhaustive_gt`
and to the `karg_thresh` keyword arguments — neither is forwarded to
`compare_sorter_to_ground_truth`, so any two choices yield equal
comparison dictionaries. -/
theorem aggregate_sorting_comparison_ignores_kargs
    (ground_truths : List (String × Sorting))
    (results : List ((String × String) × Sorting))
    (e1 e2 : Bool) (k1 k2 : Rat) :
    aggregate_sorting_comparison ground_truths results e1 k1
      = aggregate_sorting_comparison ground_truths results e2 k2 := by
  induction results with
  | nil => rfl
  | cons p rest ih =>
    cases hl : lookupBy ground_truths p.1.1 with
    | none => simp [aggregate_sorting_comparison, hl]
    | some gt => simp [aggregate_sorting_comparison, hl, ih]

/-! Performance aggregation.  The performance getters and unit counters
live with the comparison in `groundtruthcomparison.py` (not under `src/`)
and are modelled from the spec; the spec declares the exact numerical
metric definitions a non-goal, so simple faithful readings are used. -/

/-- Sorter units chosen as best match of some ground-truth unit. -/
def matchedUnits (c : Comparison) : List Nat := c.best_match_12.filterMap (·.2)

/-- Modelled from the spec: agreement between two spike trains — matched
spikes over the union of both trains. -/
def agreementScore (delta : Nat) (gtTrain sTrain : List Nat) : Rat :=
  let o := overlapScore delta gtTrain sTrain
  (o : Rat) / ((gtTrain.length + sTrain.length - o : Nat) : Rat)

/-- Modelled from the spec: `count_well_detected_units(**karg_thresh)` —
ground-truth units whose best match agrees at least `thresh`. -/
def count_well_detected_units (c : Comparison) (thresh : Rat) : Nat :=
  (c.best_match_12.filter (fun m =>
    match m.2 with
    | none => false
    | some u =>
      match lookupBy c.gt_sorting.units m.1, lookupBy c.tested_sorting.units u with
      | some gtT, some sT => decide (thresh ≤ agreementScore c.delta gtT sT)
      | _, _ => false)).length

/-- Whether a sorter unit overlaps any ground-truth unit at all. -/
def unitOverlapsGt (c : Comparison) (u : Nat × List Nat) : Bool :=
  c.gt_sorting.units.any (fun g => decide (0 < overlapScore c.delta g.2 u.2))

/-- Modelled from the spec: false-positive units — sorter units overlapping
no ground-truth unit. -/
def count_false_positive_units (c : Comparison) : Nat :=
  (c.tested_sorting.units.filter (fun u => !unitOverlapsGt c u)).length

/-- Modelled from the spec: redundant units — sorter units that overlap
some ground-truth unit but were not chosen as anyone's best match. -/
def count_redundant_units (c : Comparison) : Nat :=
  (c.tested_sorting.units.filter (fun u =>
    unitOverlapsGt c u && !(decide (u.1 ∈ matchedUnits c)))).length

/-- Modelled from the spec: bad units — sorter units that are not the best
match of any ground-truth unit (false positives plus redundant ones). -/
def count_bad_units (c : Comparison) : Nat :=
  (c.tested_sorting.units.filter (fun u => !(decide (u.1 ∈ matchedUnits c)))).length

/-- Modelled from the spec: `_perf_keys` (from `groundtruthcomparison.py`,
not under `src/`): the performance measures the spec names. -/
def _perf_keys : List String := ["precision", "recall", "accuracy"]

/-- Per ground-truth unit: (true positives, misses, false positives)
against its best match. -/
def perfCounts (c : Comparison) : List (Nat × Nat × Nat) :=
  c.best_match_12.map (fun m =>
    let gtT := (lookupBy c.gt_sorting.units m.1).getD []
    match m.2 with
    | none => (0, gtT.length, 0)
    | some u =>
      let sT := (lookupBy c.tested_sorting.units u).getD []
      let tp := overlapScore c.delta gtT sT
      (tp, gtT.length - tp, sT.length - tp))

def sumTriples (l : List (Nat × Nat × Nat)) : Nat × Nat × Nat :=
  l.foldl (fun a t => (a.1 + t.1, a.2.1 + t.2.1, a.2.2 + t.2.2)) (0, 0, 0)

/-- One performance measure from a (tp, fn, fp) triple. -/
def ratioOf (key : String) (t : Nat × Nat × Nat) : Rat :=
  if key = "precision" then (t.1 : Rat) / ((t.1 + t.2.2 : Nat) : Rat)
  else if key = "recall" then (t.1 : Rat) / ((t.1 + t.2.1 : Nat) : Rat)
  else (t.1 : Rat) / ((t.1 + t.2.1 + t.2.2 : Nat) : Rat)

def avgList (l : List Rat) : Rat := l.sum / (l.length : Rat)

/-- Modelled from the spec: the two performance pooling strategies —
`pooled_with_sum` sums the unit-level counts first, `pooled_with_average`
averages the unit-level measures. -/
def perfValue (c : Comparison) (method key : String) : Rat :=
  if method = "pooled_with_sum" then ratioOf key (sumTriples (perfCounts c))
  else avgList ((perfCounts c).map (ratioOf key))

/-- Embeds `comp.get_performance(method=..., output='pandas')`: a row of the
performance measures. -/
def get_performance (c : Comparison) (method : String) : List (String × Rat) :=
  _perf_keys.map (fun k => (k, perfValue c method k))

/-- A pandas cell value. -/
inductive Val
  | vnone
  | vstr (s : String)
  | vrat (q : Rat)
  | vnat (n : Nat)
deriving DecidableEq

/-- Minimal pandas DataFrame model: a `(rec_name, sorter_name)` MultiIndex,
column labels, and (most-recent-first) cell assignments. -/
structure DataFrame where
  index : List (String × String)
  columns : List String
  cells : List ((String × String) × String × Val)
deriving DecidableEq

/-- Embeds `.loc` enlargement: a new index key is appended. -/
def insertIdx (idx : List (String × String)) (k : String × String) :
    List (String × String) :=
  if k ∈ idx then idx else idx ++ [k]

/-- Assigning a new column label appends it. -/
def insertCol (cols : List String) (c : String) : List String :=
  if c ∈ cols then cols else cols ++ [c]

/-- Embeds `df.loc[key, col] = v`. -/
def DataFrame.setCell (df : DataFrame) (k : String × String) (col : String)
    (v : Val) : DataFrame :=
  ⟨insertIdx df.index k, insertCol df.columns col, (k, col, v) :: df.cells⟩

/-- Embeds `df.loc[key, :] = row`. -/
def DataFrame.setRow (df : DataFrame) (k : String × String)
    (row : List (String × Rat)) : DataFrame :=
  row.foldl (fun d cv => d.setCell k cv.1 (Val.vrat cv.2))
    ⟨insertIdx df.index k, df.columns, df.cells⟩

/-- Embeds `df[col] = None`: adds the column, filled with `None`. -/
def DataFrame.setColumnNone (df : DataFrame) (col : String) : DataFrame :=
  ⟨df.index, insertCol df.columns col,
    df.index.map (fun k => (k, col, Val.vnone)) ++ df.cells⟩

def count_units_base_columns : List String :=
  ["num_gt", "num_sorter", "num_well_detected", "num_redundant"]

/-- Body of the `for (rec_name, sorter_name), comp in comparisons.items()`
loop of `aggregate_performances_table`: fills one row of the two pooled
performance tables and of `count_units` (with the two extra columns only
when `exhaustive_gt`). -/
def updateTables (ground_truths : List (String × Sorting))
    (results : List ((String × String) × Sorting)) (exhaustive_gt : Bool)
    (karg_thresh : Rat) (st : DataFrame × DataFrame × DataFrame)
    (entry : (String × String) × Comparison) :
    DataFrame × DataFrame × DataFrame :=
  let key := entry.1
  let comp := entry.2
  let gt_sorting := (lookupBy ground_truths key.1).getD ⟨none, [], ""⟩
  let sorting := (lookupBy results key).getD ⟨none, [], ""⟩
  let pws := st.1.setRow key (get_performance comp "pooled_with_sum")
  let pwa := st.2.1.setRow key (get_performance comp "pooled_with_average")
  let cu := st.2.2.setCell key "num_gt" (Val.vnat gt_sorting.units.length)
  let cu := cu.setCell key "num_sorter" (Val.vnat sorting.units.length)
  let cu := cu.setCell key "num_well_detected"
    (Val.vnat (count_well_detected_units comp karg_thresh))
  let cu := cu.setCell key "num_redundant" (Val.vnat (count_redundant_units comp))
  let cu := if exhaustive_gt then
      (cu.setCell key "num_false_positive"
        (Val.vnat (count_false_positive_units comp))).setCell key "num_bad"
        (Val.vnat (count_bad_units comp))
    else cu
  (pws, pwa, cu)

/-- The `(rec_name, sorter_name)` MultiIndex of the `run_times` table. -/
def rtIndexOf (folders : List OutputFolder) : List (String × String) :=
  (collect_run_times folders).map (fun t => (t.1, t.2.1))

/-- The `run_times` DataFrame: `pd.DataFrame(rt, columns=[...]).set_index(
['rec_name', 'sorter_name'])`. -/
def run_times_table (folders : List OutputFolder) : DataFrame :=
  ⟨rtIndexOf folders, ["run_time"],
    (collect_run_times folders).map (fun t => ((t.1, t.2.1), "run_time", Val.vstr t.2.2))⟩

/-- The `count_units` DataFrame before the filling loop: four columns, plus
`num_false_positive` and `num_bad` (set to `None`) when `exhaustive_gt`. -/
def init_count_units (folders : List OutputFolder) (exhaustive_gt : Bool) : DataFrame :=
  let count_units : DataFrame := ⟨rtIndexOf folders, count_units_base_columns, []⟩
  if exhaustive_gt then
    (count_units.setColumnNone "num_false_positive").setColumnNone "num_bad"
  else count_units

/-- The three tables filled by the loop over `comparisons.items()`. -/
def filled_tables (ground_truths : List (String × Sorting))
    (results : List ((String × String) × Sorting)) (folders : List OutputFolder)
    (exhaustive_gt : Bool) (karg_thresh : Rat)
    (comparisons : List ((String × String) × Comparison)) :
    DataFrame × DataFrame × DataFrame :=
  comparisons.foldl (updateTables ground_truths results exhaustive_gt karg_thresh)
    (⟨rtIndexOf folders, _perf_keys, []⟩, ⟨rtIndexOf folders, _perf_keys, []⟩,
      init_count_units folders exhaustive_gt)

/-- Embeds `aggregate_performances_table(study_folder, exhaustive_gt,
**karg_thresh)`: builds the `run_times` table from the collected run
times, creates the two pooled performance tables and `count_units` over the
same index, and fills one row per comparison. -/
def aggregate_performances_table (ground_truths : List (String × Sorting))
    (results : List ((String × String) × Sorting)) (folders : List OutputFolder)
    (exhaustive_gt : Bool) (karg_thresh : Rat) :
    Except String (List (String × DataFrame)) :=
  match aggregate_sorting_comparison ground_truths results exhaustive_gt karg_thresh with
  | .error e => .error e
  | .ok comparisons =>
    let st := filled_tables ground_truths results folders exhaustive_gt karg_thresh comparisons
    .ok [("run_times", run_times_table folders), ("perf_pooled_with_sum", st.1),
         ("perf_pooled_with_average", st.2.1), ("count_units", st.2.2)]

/-! Index/column preservation lemmas for the table-filling loop. -/

theorem index_setCell (df : DataFrame) (k : String × String) (col : String)
    (v : Val) (hk : k ∈ df.index) : (df.setCell k col v).index = df.index := by
  simp [DataFrame.setCell, insertIdx, hk]

theorem columns_setCell (df : DataFrame) (k : String × String) (col : String)
    (v : Val) (hc : col ∈ df.columns) : (df.setCell k col v).columns = df.columns := by
  simp [DataFrame.setCell, insertCol, hc]

theorem setRowAux_pres (k : String × String) (row : List (String × Rat)) :
    ∀ d : DataFrame, k ∈ d.index → (∀ cv ∈ row, cv.1 ∈ d.columns) →
    (row.foldl (fun d cv => d.setCell k cv.1 (Val.vrat cv.2)) d).index = d.index
    ∧ (row.foldl (fun d cv => d.setCell k cv.1 (Val.vrat cv.2)) d).columns = d.columns := by
  induction row with
  | nil => intro d _ _; exact ⟨rfl, rfl⟩
  | cons cv rest ih =>
    intro d hk hc
    have hi := index_setCell d k cv.1 (Val.vrat cv.2) hk
    have hcol := columns_setCell d k cv.1 (Val.vrat cv.2) (hc cv (List.mem_cons_self cv rest))
    obtain ⟨ri, rc⟩ := ih (d.setCell k cv.1 (Val.vrat cv.2)) (hi ▸ hk)
      (fun cw hw => hcol ▸ hc cw (List.mem_cons_of_mem cv hw))
    exact ⟨by simpa [hi] using ri, by simpa [hcol] using rc⟩

theorem setRow_pres (df : DataFrame) (k : String × String)
    (row : List (String × Rat)) (hk : k ∈ df.index)
    (hc : ∀ cv ∈ row, cv.1 ∈ df.columns) :
    (df.setRow k row).index = df.index ∧ (df.setRow k row).columns = df.columns := by
  unfold DataFrame.setRow
  have hins : insertIdx df.index k = df.index := by simp [insertIdx, hk]
  obtain ⟨ri, rc⟩ := setRowAux_pres k row ⟨insertIdx df.index k, df.columns, df.cells⟩
    (by simpa [hins] using hk) hc
  exact ⟨by simpa [hins] using ri, rc⟩

theorem get_performance_cols (c : Comparison) (method : String) :
    ∀ cv ∈ get_performance c method, cv.1 ∈ _perf_keys := by
  intro cv hcv
  obtain ⟨key, hkey, rfl⟩ := List.mem_map.mp hcv
  exact hkey

/-- Invariant of the table-filling state: both performance tables and
`count_units` keep the run-times index, the performance tables keep the
`_perf_keys` columns, and `count_units` keeps its (possibly extended)
columns. -/
def TablesInv (rtIdx : List (String × String)) (exhaustive_gt : Bool)
    (st : DataFrame × DataFrame × DataFrame) : Prop :=
  st.1.index = rtIdx ∧ st.1.columns = _perf_keys
  ∧ st.2.1.index = rtIdx ∧ st.2.1.columns = _perf_keys
  ∧ st.2.2.index = rtIdx
  ∧ st.2.2.columns = count_units_base_columns
      ++ (if exhaustive_gt then ["num_false_positive", "num_bad"] else [])

theorem setCell_pres (df : DataFrame) (k : String × String) (col : String)
    (v : Val) (rtIdx : List (String × String)) (cols : List String)
    (hi : df.index = rtIdx) (hc : df.columns = cols)
    (hk : k ∈ rtIdx) (hcol : col ∈ cols) :
    (df.setCell k col v).index = rtIdx ∧ (df.setCell k col v).columns = cols := by
  subst hi; subst hc
  exact ⟨index_setCell df k col v hk, columns_setCell df k col v hcol⟩

theorem tablesInv_updateTables (ground_truths : List (String × Sorting))
    (results : List ((String × String) × Sorting)) (exhaustive_gt : Bool)
    (karg_thresh : Rat) (rtIdx : List (String × String))
    (st : DataFrame × DataFrame × DataFrame) (entry : (String × String) × Comparison)
    (hst : TablesInv rtIdx exhaustive_gt st) (he : entry.1 ∈ rtIdx) :
    TablesInv rtIdx exhaustive_gt
      (updateTables ground_truths results exhaustive_gt karg_thresh st entry) := by
  obtain ⟨i1, c1, i2, c2, i3, c3⟩ := hst
  have p1 := setRow_pres st.1 entry.1 (get_performance entry.2 "pooled_with_sum")
    (i1 ▸ he) (by rw [c1]; exact get_performance_cols entry.2 "pooled_with_sum")
  have p2 := setRow_pres st.2.1 entry.1 (get_performance entry.2 "pooled_with_average")
    (i2 ▸ he) (by rw [c2]; exact get_performance_cols entry.2 "pooled_with_average")
  cases exhaustive_gt with
  | false =>
    have q1 := setCell_pres st.2.2 entry.1 "num_gt"
      (Val.vnat ((lookupBy ground_truths entry.1.1).getD ⟨none, [], ""⟩).units.length)
      rtIdx _ i3 c3 he (by decide)
    have q2 := setCell_pres _ entry.1 "num_sorter"
      (Val.vnat ((lookupBy results entry.1).getD ⟨none, [], ""⟩).units.length)
      rtIdx _ q1.1 q1.2 he (by decide)
    have q3 := setCell_pres _ entry.1 "num_well_detected"
      (Val.vnat (count_well_detected_units entry.2 karg_thresh))
      rtIdx _ q2.1 q2.2 he (by decide)
    have q4 := setCell_pres _ entry.1 "num_redundant"
      (Val.vnat (count_redundant_units entry.2))
      rtIdx _ q3.1 q3.2 he (by decide)
    exact ⟨p1.1.trans i1, p1.2.trans c1, p2.1.trans i2, p2.2.trans c2, q4.1, q4.2⟩
  | true =>
    have q1 := setCell_pres st.2.2 entry.1 "num_gt"
      (Val.vnat ((lookupBy ground_truths entry.1.1).getD ⟨none, [], ""⟩).units.length)
      rtIdx _ i3 c3 he (by decide)
    have q2 := setCell_pres _ entry.1 "num_sorter"
      (Val.vnat ((lookupBy results entry.1).getD ⟨none, [], ""⟩).units.length)
      rtIdx _ q1.1 q1.2 he (by decide)
    have q3 := setCell_pres _ entry.1 "num_well_detected"
      (Val.vnat (count_well_detected_units entry.2 karg_thresh))
      rtIdx _ q2.1 q2.2 he (by decide)
    have q4 := setCell_pres _ entry.1 "num_redundant"
      (Val.vnat (count_redundant_units entry.2))
      rtIdx _ q3.1 q3.2 he (by decide)
    have q5 := setCell_pres _ entry.1 "num_false_positive"
      (Val.vnat (count_false_positive_units entry.2))
      rtIdx _ q4.1 q4.2 he (by decide)
    have q6 := setCell_pres _ entry.1 "num_bad"
      (Val.vnat (count_bad_units entry.2))
      rtIdx _ q5.1 q5.2 he (by decide)
    exact ⟨p1.1.trans i1, p1.2.trans c1, p2.1.trans i2, p2.2.trans c2, q6.1, q6.2⟩

theorem tablesInv_foldl (ground_truths : List (String × Sorting))
    (results : List ((String × String) × Sorting)) (exhaustive_gt : Bool)
    (karg_thresh : Rat) (rtIdx : List (String × String))
    (comparisons : List ((String × String) × Comparison)) :
    ∀ st : DataFrame × DataFrame × DataFrame,
    TablesInv rtIdx exhaustive_gt st → (∀ e ∈ comparisons, e.1 ∈ rtIdx) →
    TablesInv rtIdx exhaustive_gt
      (comparisons.foldl (updateTables ground_truths results exhaustive_gt karg_thresh) st) := by
  induction comparisons with
  | nil => intro st hst _; exact hst
  | cons e rest ih =>
    intro st hst hk
    exact ih _ (tablesInv_updateTables ground_truths results exhaustive_gt karg_thresh
        rtIdx st e hst (hk e (List.mem_cons_self e rest)))
      (fun x hx => hk x (List.mem_cons_of_mem e hx))

theorem tablesInv_init (folders : List OutputFolder) (exhaustive_gt : Bool) :
    TablesInv (rtIndexOf folders) exhaustive_gt
      (⟨rtIndexOf folders, _perf_keys, []⟩, ⟨rtIndexOf folders, _perf_keys, []⟩,
        init_count_units folders exhaustive_gt) := by
  cases exhaustive_gt with
  | false => exact ⟨rfl, rfl, rfl, rfl, rfl, by simp [init_count_units]⟩
  | true =>
    refine ⟨rfl, rfl, rfl, rfl, rfl, ?_⟩
    show insertCol (insertCol count_units_base_columns "num_false_positive") "num_bad" = _
    decide

/-- C2: under a ground truth for every collected output and a run-time
entry for every output pair, `aggregate_performances_table` returns a
dictionary whose keys are exactly `run_times`, `perf_pooled_with_sum`,
`perf_pooled_with_average` and `count_units`, each table indexed by the
`(rec_name, sorter_name)` pairs of the run-times index, and `count_units`
carries the columns `num_gt`, `num_sorter`, `num_well_detected`,
`num_redundant`, extended by `num_false_positive` and `num_bad` exactly
when `exhaustive_gt` is true. -/
theorem aggregate_performances_table_spec (ground_truths : List (String × Sorting))
    (results : List ((String × String) × Sorting)) (folders : List OutputFolder)
    (exhaustive_gt : Bool) (karg_thresh : Rat)
    (h1 : ∀ p ∈ results, (lookupBy ground_truths p.1.1).isSome = true)
    (h2 : ∀ p ∈ results, p.1 ∈ rtIndexOf folders) :
    ∃ st : DataFrame × DataFrame × DataFrame,
      aggregate_performances_table ground_truths results folders exhaustive_gt karg_thresh
        = .ok [("run_times", run_times_table folders), ("perf_pooled_with_sum", st.1),
               ("perf_pooled_with_average", st.2.1), ("count_units", st.2.2)]
      ∧ [("run_times", run_times_table folders), ("perf_pooled_with_sum", st.1),
          ("perf_pooled_with_average", st.2.1), ("count_units", st.2.2)].map Prod.fst
        = ["run_times", "perf_pooled_with_sum", "perf_pooled_with_average", "count_units"]
      ∧ (run_times_table folders).index = rtIndexOf folders
      ∧ st.1.index = rtIndexOf folders
      ∧ st.2.1.index = rtIndexOf folders
      ∧ st.2.2.index = rtIndexOf folders
      ∧ st.2.2.columns = count_units_base_columns
          ++ (if exhaustive_gt then ["num_false_positive", "num_bad"] else []) := by
  have hcomp := aggregate_sorting_comparison_ok ground_truths results exhaustive_gt
    karg_thresh h1
  have hkeys : ∀ e ∈ results.map (fun p => (p.1, compare_sorter_to_ground_truth
      ((lookupBy ground_truths p.1.1).getD ⟨none, [], ""⟩) p.2)),
      e.1 ∈ rtIndexOf folders := by
    intro e he
    obtain ⟨p, hp, rfl⟩ := List.mem_map.mp he
    exact h2 p hp
  have hinv := tablesInv_foldl ground_truths results exhaustive_gt karg_thresh
    (rtIndexOf folders)
    (results.map (fun p => (p.1, compare_sorter_to_ground_truth
      ((lookupBy ground_truths p.1.1).getD ⟨none, [], ""⟩) p.2)))
    (⟨rtIndexOf folders, _perf_keys, []⟩, ⟨rtIndexOf folders, _perf_keys, []⟩,
      init_count_units folders exhaustive_gt)
    (tablesInv_init folders exhaustive_gt) hkeys
  obtain ⟨a1, b1, a2, b2, a3, b3⟩ := hinv
  refine ⟨filled_tables ground_truths results folders exhaustive_gt karg_thresh
    (results.map (fun p => (p.1, compare_sorter_to_ground_truth
      ((lookupBy ground_truths p.1.1).getD ⟨none, [], ""⟩) p.2))),
    ?_, rfl, rfl, ?_, ?_, ?_, ?_⟩
  · unfold aggregate_performances_table
    rw [hcomp]
  · exact a1
  · exact a2
  · exact a3
  · exact b3

/-- C2 witness: one recording, one sorter output with a run log, with
`exhaustive_gt = True` so the two extra columns appear. -/
theorem aggregate_performances_table_spec_witness :
    ∃ st : DataFrame × DataFrame × DataFrame,
      aggregate_performances_table [("rec0", ⟨some 30000, [(0, [5, 9])], "NPZ"⟩)]
          [(("rec0", "sorterA"), ⟨none, [(3, [6])], "OUT"⟩)]
          [("rec0", "sorterA", some "run_time:1.5\n")] true 0
        = .ok [("run_times", run_times_table [("rec0", "sorterA", some "run_time:1.5\n")]),
               ("perf_pooled_with_sum", st.1),
               ("perf_pooled_with_average", st.2.1), ("count_units", st.2.2)]
      ∧ [("run_times", run_times_table [("rec0", "sorterA", some "run_time:1.5\n")]),
          ("perf_pooled_with_sum", st.1),
          ("perf_pooled_with_average", st.2.1), ("count_units", st.2.2)].map Prod.fst
        = ["run_times", "perf_pooled_with_sum", "perf_pooled_with_average", "count_units"]
      ∧ (run_times_table [("rec0", "sorterA", some "run_time:1.5\n")]).index
        = rtIndexOf [("rec0", "sorterA", some "run_time:1.5\n")]
      ∧ st.1.index = rtIndexOf [("rec0", "sorterA", some "run_time:1.5\n")]
      ∧ st.2.1.index = rtIndexOf [("rec0", "sorterA", some "run_time:1.5\n")]
      ∧ st.2.2.index = rtIndexOf [("rec0", "sorterA", some "run_time:1.5\n")]
      ∧ st.2.2.columns = count_units_base_columns
          ++ (if true then ["num_false_positive", "num_bad"] else []) :=
  aggregate_performances_table_spec _ _ _ true 0 (by decide) (by decide)

/-! Curation: per-metric threshold functions
(`spiketoolkit/curation/threshold_metrics.py`).  The metric classes and
`threshold_metric` live in `spiketoolkit.validation`, which is not under
`src/`, and the spec declares reproducing the numerical metric definitions
a non-goal; they are modelled below.  What the source file itself
contributes — the sampling-frequency validity check, the defaulting of the
unit list, and the dispatch to `threshold_metric` — is embedded exactly. -/

/-- The `metric_scope_params` dictionary. -/
structure MetricScopeParams where
  unit_ids : Option (List Nat)
  epoch_tuples : Option (List (Nat × Nat))
  epoch_names : Option (List String)
deriving DecidableEq

/-- Embeds `get_metric_scope_params()`: the default scope dictionary. -/
def get_metric_scope_params : MetricScopeParams := ⟨none, none, none⟩

/-- Modelled from the spec: `update_param_dicts` (from
`spiketoolkit.validation`, not under `src/`) completes a user dictionary
with defaults; on an already-complete record it is the identity. -/
def update_param_dicts (p : MetricScopeParams) : MetricScopeParams := p

/-- The `MetricData` constructed by every threshold function: the sorting
plus the evaluated unit ids.  Note that the source passes no sampling
frequency into it. -/
structure MetricData where
  sorting : Sorting
  unit_ids : List Nat
deriving DecidableEq

/-- Whether a metric value is removed under the given `threshold_sign`
(`'less'`, `'less_or_equal'`, `'greater'`, `'greater_or_equal'`). -/
def violatesThreshold (threshold : Rat) (threshold_sign : String) (m : Rat) : Bool :=
  if threshold_sign = "less" then decide (m < threshold)
  else if threshold_sign = "less_or_equal" then decide (m ≤ threshold)
  else if threshold_sign = "greater" then decide (threshold < m)
  else if threshold_sign = "greater_or_equal" then decide (threshold ≤ m)
  else false

/-- Modelled from the spec: `threshold_metric` (from
`spiketoolkit.validation`, not under `src/`) returns the thresholded
sorting extractor: evaluated units whose metric violates the threshold are
removed. -/
def threshold_metric (metric : Sorting → List Nat → Rat) (md : MetricData)
    (threshold : Rat) (threshold_sign : String) : Sorting :=
  { md.sorting with units := md.sorting.units.filter (fun u =>
      !(decide (u.1 ∈ md.unit_ids)
        && violatesThreshold threshold threshold_sign (metric md.sorting u.2))) }

/-- The num-spikes metric: the spike count of the train. -/
def num_spikes_metric (_s : Sorting) (train : List Nat) : Rat := train.length

/-- Modelled from the spec: the firing-rate numerical definition is a
spec non-goal; read here as spikes per sample span.  It does not depend on
the threshold function's `sampling_frequency` argument, which the source
never forwards. -/
def firing_rate_metric (_s : Sorting) (train : List Nat) : Rat :=
  (train.length : Rat) / ((train.getLast?.getD 0 + 1 : Nat) : Rat)

/-- Modelled from the spec: the presence-ratio numerical definition is a
spec non-goal; read here as the fraction of 100-sample bins containing a
spike. -/
def presence_ratio_metric (_s : Sorting) (train : List Nat) : Rat :=
  ((train.map (fun t => t / 100)).dedup.length : Rat)
    / ((train.getLast?.getD 0 / 100 + 1 : Nat) : Rat)

/-- Modelled from the spec: the ISI-violation numerical definition is a
spec non-goal; read here as the count of inter-spike gaps below the ISI
threshold scaled by the extractor's own sampling frequency. -/
def isi_violations_metric (isi_threshold _min_isi : Rat) (s : Sorting)
    (train : List Nat) : Rat :=
  (((train.zip train.tail).filter (fun p =>
    decide (((p.2 - p.1 : Int) : Rat)
      < isi_threshold * s.sampling_frequency.getD 1))).length : Rat)

/-- Embeds `threshold_num_spikes(sorting, threshold, threshold_sign, epoch,
sampling_frequency, metric_scope_params, save_as_property)`. -/
def threshold_num_spikes (sorting : Sorting) (threshold : Rat)
    (threshold_sign : String) (epoch : Nat) (sampling_frequency : Option Rat)
    (metric_scope_params : MetricScopeParams) (save_as_property : Bool) :
    Except String Sorting :=
  if sampling_frequency = none ∧ sorting.sampling_frequency = none then
    .error "Please pass in a sampling frequency (your SortingExtractor does not have one specified)"
  else
    let _sampling_frequency :=
      if sampling_frequency = none then sorting.sampling_frequency else sampling_frequency
    let ms_dict := update_param_dicts metric_scope_params
    let unit_ids := ms_dict.unit_ids.getD (sorting.units.map (·.1))
    let md : MetricData := ⟨sorting, unit_ids⟩
    let _epoch := epoch
    let _save_as_property := save_as_property
    .ok (threshold_metric num_spikes_metric md threshold threshold_sign)

/-- Embeds `threshold_firing_rates(...)`: same structure with the firing-rate
metric. -/
def threshold_firing_rates (sorting : Sorting) (threshold : Rat)
    (threshold_sign : String) (epoch : Nat) (sampling_frequency : Option Rat)
    (metric_scope_params : MetricScopeParams) (save_as_property : Bool) :
    Except String Sorting :=
  if sampling_frequency = none ∧ sorting.sampling_frequency = none then
    .error "Please pass in a sampling frequency (your SortingExtractor does not have one specified)"
  else
    let _sampling_frequency :=
      if sampling_frequency = none then sorting.sampling_frequency else sampling_frequency
    let ms_dict := update_param_dicts metric_scope_params
    let unit_ids := ms_dict.unit_ids.getD (sorting.units.map (·.1))
    let md : MetricData := ⟨sorting, unit_ids⟩
    let _epoch := epoch
    let _save_as_property := save_as_property
    .ok (threshold_metric firing_rate_metric md threshold threshold_sign)

/-- Embeds `threshold_presence_ratios(...)`: same structure with the
presence-ratio metric. -/
def threshold_presence_ratios (sorting : Sorting) (threshold : Rat)
    (threshold_sign : String) (epoch : Nat) (sampling_frequency : Option Rat)
    (metric_scope_params : MetricScopeParams) (save_as_property : Bool) :
    Except String Sorting :=
  if sampling_frequency = none ∧ sorting.sampling_frequency = none then
    .error "Please pass in a sampling frequency (your SortingExtractor does not have one specified)"
  else
    let _sampling_frequency :=
      if sampling_frequency = none then sorting.sampling_frequency else sampling_frequency
    let ms_dict := update_param_dicts metric_scope_params
    let unit_ids := ms_dict.unit_ids.getD (sorting.units.map (·.1))
    let md : MetricData := ⟨sorting, unit_ids⟩
    let _epoch := epoch
    let _save_as_property := save_as_property
    .ok (threshold_metric presence_ratio_metric md threshold threshold_sign)

/-- Embeds `threshold_isi_violations(...)`: same structure with the ISI-violation
metric, which additionally receives `isi_threshold` and `min_isi`. -/
def threshold_isi_violations (sorting : Sorting) (threshold : Rat)
    (threshold_sign : String) (epoch : Nat) (isi_threshold min_isi : Rat)
    (sampling_frequency : Option Rat) (metric_scope_params : MetricScopeParams)
    (save_as_property : Bool) : Except String Sorting :=
  if sampling_frequency = none ∧ sorting.sampling_frequency = none then
    .error "Please pass in a sampling frequency (your SortingExtractor does not have one specified)"
  else
    let _sampling_frequency :=
      if sampling_frequency = none then sorting.sampling_frequency else sampling_frequency
    let ms_dict := update_param_dicts metric_scope_params
    let unit_ids := ms_dict.unit_ids.getD (sorting.units.map (·.1))
    let md : MetricData := ⟨sorting, unit_ids⟩
    let _epoch := epoch
    let _save_as_property := save_as_property
    .ok (threshold_metric (isi_violations_metric isi_threshold min_isi) md
      threshold threshold_sign)

/-- C8: each of `threshold_num_spikes`, `threshold_firing_rates`,
`threshold_presence_ratios` and `threshold_isi_violations` raises
`ValueError` exactly when both the `sampling_frequency` argument and the
sorting extractor's own sampling frequency are missing; otherwise it
returns the thresholded sorting obtained by `threshold_metric` on the
corresponding metric. -/
theorem threshold_metrics_error_iff (sorting : Sorting) (threshold : Rat)
    (threshold_sign : String) (epoch : Nat) (sampling_frequency : Option Rat)
    (metric_scope_params : MetricScopeParams) (save_as_property : Bool)
    (isi_threshold min_isi : Rat) :
    ((∃ msg, threshold_num_spikes sorting threshold threshold_sign epoch
        sampling_frequency metric_scope_params save_as_property = .error msg)
      ↔ sampling_frequency = none ∧ sorting.sampling_frequency = none)
    ∧ ((∃ msg, threshold_firing_rates sorting threshold threshold_sign epoch
        sampling_frequency metric_scope_params save_as_property = .error msg)
      ↔ sampling_frequency = none ∧ sorting.sampling_frequency = none)
    ∧ ((∃ msg, threshold_presence_ratios sorting threshold threshold_sign epoch
        sampling_frequency metric_scope_params save_as_property = .error msg)
      ↔ sampling_frequency = none ∧ sorting.sampling_frequency = none)
    ∧ ((∃ msg, threshold_isi_violations sorting threshold threshold_sign epoch
        isi_threshold min_isi sampling_frequency metric_scope_params
        save_as_property = .error msg)
      ↔ sampling_frequency = none ∧ sorting.sampling_frequency = none)
    ∧ (¬(sampling_frequency = none ∧ sorting.sampling_frequency = none) →
      threshold_num_spikes sorting threshold threshold_sign epoch
          sampling_frequency metric_scope_params save_as_property
        = .ok (threshold_metric num_spikes_metric
            ⟨sorting, (update_param_dicts metric_scope_params).unit_ids.getD
              (sorting.units.map (·.1))⟩ threshold threshold_sign)
      ∧ threshold_firing_rates sorting threshold threshold_sign epoch
          sampling_frequency metric_scope_params save_as_property
        = .ok (threshold_metric firing_rate_metric
            ⟨sorting, (update_param_dicts metric_scope_params).unit_ids.getD
              (sorting.units.map (·.1))⟩ threshold threshold_sign)
      ∧ threshold_presence_ratios sorting threshold threshold_sign epoch
          sampling_frequency metric_scope_params save_as_property
        = .ok (threshold_metric presence_ratio_metric
            ⟨sorting, (update_param_dicts metric_scope_params).unit_ids.getD
              (sorting.units.map (·.1))⟩ threshold threshold_sign)
      ∧ threshold_isi_violations sorting threshold threshold_sign epoch
          isi_threshold min_isi sampling_frequency metric_scope_params
          save_as_property
        = .ok (threshold_metric (isi_violations_metric isi_threshold min_isi)
            ⟨sorting, (update_param_dicts metric_scope_params).unit_ids.getD
              (sorting.units.map (·.1))⟩ threshold threshold_sign)) := by
  by_cases h : sampling_frequency = none ∧ sorting.sampling_frequency = none
  · refine ⟨?_, ?_, ?_, ?_, fun hc => absurd h hc⟩
    · simp [threshold_num_spikes, h]
    · simp [threshold_firing_rates, h]
    · simp [threshold_presence_ratios, h]
    · simp [threshold_isi_violations, h]
  · refine ⟨?_, ?_, ?_, ?_, fun _ => ⟨?_, ?_, ?_, ?_⟩⟩
    · simp [threshold_num_spikes, h]
    · simp [threshold_firing_rates, h]
    · simp [threshold_presence_ratios, h]
    · simp [threshold_isi_violations, h]
    · simp [threshold_num_spikes, h]
    · simp [threshold_firing_rates, h]
    · simp [threshold_presence_ratios, h]
    · simp [threshold_isi_violations, h]

/-- C8 witness: with the `sampling_frequency` argument provided, all four
functions return the thresholded sorting. -/
theorem threshold_metrics_error_iff_witness :
    threshold_num_spikes ⟨some 30000, [(0, [1, 2]), (1, [3])], "NPZ"⟩ 1 "less" 0
        (some 20000) get_metric_scope_params true
      = .ok (threshold_metric num_spikes_metric
          ⟨⟨some 30000, [(0, [1, 2]), (1, [3])], "NPZ"⟩,
            (update_param_dicts get_metric_scope_params).unit_ids.getD
              (([(0, [1, 2]), (1, [3])] : List (Nat × List Nat)).map (·.1))⟩ 1 "less")
    ∧ threshold_firing_rates ⟨some 30000, [(0, [1, 2]), (1, [3])], "NPZ"⟩ 1 "less" 0
        (some 20000) get_metric_scope_params true
      = .ok (threshold_metric firing_rate_metric
          ⟨⟨some 30000, [(0, [1, 2]), (1, [3])], "NPZ"⟩,
            (update_param_dicts get_metric_scope_params).unit_ids.getD
              (([(0, [1, 2]), (1, [3])] : List (Nat × List Nat)).map (·.1))⟩ 1 "less")
    ∧ threshold_presence_ratios ⟨some 30000, [(0, [1, 2]), (1, [3])], "NPZ"⟩ 1 "less" 0
        (some 20000) get_metric_scope_params true
      = .ok (threshold_metric presence_ratio_metric
          ⟨⟨some 30000, [(0, [1, 2]), (1, [3])], "NPZ"⟩,
            (update_param_dicts get_metric_scope_params).unit_ids.getD
              (([(0, [1, 2]), (1, [3])] : List (Nat × List Nat)).map (·.1))⟩ 1 "less")
    ∧ threshold_isi_violations ⟨some 30000, [(0, [1, 2]), (1, [3])], "NPZ"⟩ 1 "less" 0
        1 0 (some 20000) get_metric_scope_params true
      = .ok (threshold_metric (isi_violations_metric 1 0)
          ⟨⟨some 30000, [(0, [1, 2]), (1, [3])], "NPZ"⟩,
            (update_param_dicts get_metric_scope_params).unit_ids.getD
              (([(0, [1, 2]), (1, [3])] : List (Nat × List Nat)).map (·.1))⟩ 1 "less") :=
  (threshold_metrics_error_iff ⟨some 30000, [(0, [1, 2]), (1, [3])], "NPZ"⟩ 1 "less" 0
    (some 20000) get_metric_scope_params true 1 0).2.2.2.2 (by simp)

/-- C9: once the validity check passes, `threshold_num_spikes` ignores the
value of its `sampling_frequency` argument — any two provided frequencies
yield the same thresholded sorting. -/
theorem threshold_num_spikes_ignores_sampling_frequency (sorting : Sorting)
    (threshold : Rat) (threshold_sign : String) (epoch : Nat)
    (metric_scope_params : MetricScopeParams) (save_as_property : Bool)
    (sf1 sf2 : Rat) :
    threshold_num_spikes sorting threshold threshold_sign epoch (some sf1)
        metric_scope_params save_as_property
      = threshold_num_spikes sorting threshold threshold_sign epoch (some sf2)
        metric_scope_params save_as_property := by
  simp [threshold_num_spikes]

end SpikeToolkit
